import Mathlib

/-!
Verification development for the resume-backend service (`src/main.py`).

The file shallowly embeds the parts of the program the specification talks
about:

* the pydantic model `AnalysisResult` and the validation performed by
  `AnalysisResult(**data)` over JSON values (`validateAnalysis`);
* the analysis pipeline `analyze_with_ai` / `analyze_resume`, with the
  external collaborators (PDF/DOCX text extraction, the remote
  text-generation service and the stdlib JSON parser) passed in as
  parameters, and an instrumentation bit recording whether the remote
  service was invoked;
* the report renderer `download_report`, modelled as the list of styled
  flowable elements the handler builds and hands to the layout library.

Machine-level details that the claims do not touch (byte contents of the
uploaded file, non-integer JSON numerics, the geometry of the layout library)
are kept abstract.
-/

set_option autoImplicit false
set_option linter.unusedVariables false

namespace ResumeBackend

/-- JSON values as produced by `json.loads` on the model response.
Non-integer numerics are outside the model (no claim touches them);
objects are association lists with distinct keys, first-match lookup. -/
inductive Json where
  | null
  | bool (b : Bool)
  | int (n : Int)
  | str (s : String)
  | arr (xs : List Json)
  | obj (kvs : List (String × Json))

/-- Python dict lookup: the value bound to key `k`, if any. -/
def pyLookup (k : String) : List (String × Json) → Option Json
  | [] => none
  | (k2, v) :: rest => if k2 = k then some v else pyLookup k rest

/-- An optionally signed, non-empty decimal digit string, as accepted by the
validation library when coercing a string to an integer field. -/
def decDigits? : List Char → Option Nat
  | [] => none
  | cs =>
      cs.foldlM
        (fun acc c => if c.isDigit then some (acc * 10 + (c.toNat - 48)) else none)
        0

/-- Lax parse of a string as an integer (optional sign, decimal digits). -/
def strToInt? (s : String) : Option Int :=
  match s.data with
  | '-' :: rest => (decDigits? rest).map (fun n => -(n : Int))
  | '+' :: rest => (decDigits? rest).map (fun n => (n : Int))
  | cs => (decDigits? cs).map (fun n => (n : Int))

/-- Validation of a JSON value against a pydantic `int` field
(lax mode, JSON-value domain): an integer is accepted as is, and a string
is coerced when it reads as an integer; everything else is rejected. -/
def jsonToInt : Json → Except String Int
  | .int n => .ok n
  | .str s =>
      match strToInt? s with
      | some n => .ok n
      | none => .error "int field: unparsable string"
  | _ => .error "int field: wrong type"

/-- Validation of a JSON value against a pydantic `str` field. -/
def jsonToStr : Json → Except String String
  | .str s => .ok s
  | _ => .error "str field: wrong type"

/-- Validation of a JSON value against a `list[str]` field. -/
def jsonToStrList : Json → Except String (List String)
  | .arr xs => xs.mapM jsonToStr
  | _ => .error "list[str] field: wrong type"

/-- Validation of a JSON value against a bare `list` field
(elements unchecked). -/
def jsonToAnyList : Json → Except String (List Json)
  | .arr xs => .ok xs
  | _ => .error "list field: wrong type"

/-- The pydantic model of `src/main.py` lines 58-67:
required `score : int`, `skills : list[str]`, `summary : str`,
`weaknesses : list[str]`, `suggestions : list[str]`, `improvedResume : str`;
`strengths : list[str]` defaulting to `[]` and `sections : list`
defaulting to `[]`. -/
structure AnalysisResult where
  score : Int
  skills : List String
  summary : String
  weaknesses : List String
  suggestions : List String
  improvedResume : String
  strengths : List String := []
  sections : List Json := []

/-- Look up a required field and validate it; a missing key is a
validation error. -/
def requiredField {α : Type} (kvs : List (String × Json)) (k : String)
    (f : Json → Except String α) : Except String α :=
  match pyLookup k kvs with
  | none => .error ("missing required key " ++ k)
  | some v => f v

/-- Look up an optional field: validate it when present, otherwise use the
declared default. -/
def optionalField {α : Type} (kvs : List (String × Json)) (k : String)
    (f : Json → Except String α) (dflt : α) : Except String α :=
  match pyLookup k kvs with
  | none => .ok dflt
  | some v => f v

/-- The validation performed by `AnalysisResult(**data)` (line 118):
each declared field is validated against its annotation, keys not declared
on the model are ignored, and only `strengths` and `sections` have
defaults. A non-object input cannot be splatted into keyword arguments
and fails. -/
def validateAnalysis : Json → Except String AnalysisResult
  | .obj kvs => do
      let score ← requiredField kvs "score" jsonToInt
      let skills ← requiredField kvs "skills" jsonToStrList
      let summary ← requiredField kvs "summary" jsonToStr
      let weaknesses ← requiredField kvs "weaknesses" jsonToStrList
      let suggestions ← requiredField kvs "suggestions" jsonToStrList
      let improvedResume ← requiredField kvs "improvedResume" jsonToStr
      let strengths ← optionalField kvs "strengths" jsonToStrList []
      let sections ← optionalField kvs "sections" jsonToAnyList []
      pure { score := score, skills := skills, summary := summary,
             weaknesses := weaknesses, suggestions := suggestions,
             improvedResume := improvedResume, strengths := strengths,
             sections := sections }
  | _ => .error "model response is not a JSON object"

/-- The keys declared on the model; every other key of the parsed response
is ignored by validation. -/
def modelKeys : List String :=
  ["score", "skills", "summary", "weaknesses", "suggestions",
   "improvedResume", "strengths", "sections"]

/-! ## Python string primitives

The handlers use `str.lower`, `str.endswith`, `str.strip` and
`str.replace`; they are modelled character-by-character (ASCII range,
which covers every literal the program compares against). -/

/-- `str.lower` on the ASCII range. -/
def pyToLower (s : String) : String :=
  String.mk (s.data.map fun c =>
    if 65 ≤ c.toNat ∧ c.toNat ≤ 90 then Char.ofNat (c.toNat + 32) else c)

/-- `str.endswith`: the final characters equal the suffix. -/
def pyEndsWith (s suffix : String) : Bool :=
  decide (s.data.drop (s.data.length - suffix.data.length) = suffix.data)

/-- The whitespace characters `str.strip` removes (space, tab, newline,
vertical tab, form feed, carriage return). -/
def pyIsSpace (c : Char) : Bool :=
  c.toNat = 32 ∨ c.toNat = 9 ∨ c.toNat = 10 ∨ c.toNat = 11 ∨
    c.toNat = 12 ∨ c.toNat = 13

/-- `str.strip()`: drop whitespace from both ends. -/
def pyStrip (s : String) : String :=
  String.mk
    (((s.data.dropWhile pyIsSpace).reverse.dropWhile pyIsSpace).reverse)

/-- `.replace("\n", rep)` on the character list: every newline is replaced
by `rep`, other characters kept (the only `str.replace` the program does
is on the one-character pattern `"\n"`). -/
def replaceNlChars (rep : List Char) : List Char → List Char
  | [] => []
  | c :: rest =>
      if c = '\n' then rep ++ replaceNlChars rep rest
      else c :: replaceNlChars rep rest

/-- `text.replace("\n", "<br/>")` as used at lines 267 and 350. -/
def nlToBr (s : String) : String :=
  String.mk (replaceNlChars "<br/>".data s.data)

/-- Python exceptions that `analyze_with_ai` and the handlers can raise;
none of the handlers catches any of them, so a raised exception propagates
to the framework. -/
inductive PyErr where
  | apiError (msg : String)
  | structureError (msg : String)
  | jsonDecodeError (raw : String)
  | validationError (msg : String)
  | extractionError (msg : String)
deriving DecidableEq, Repr

/-- Verdict of the remote text-generation call together with the stdlib
JSON parse of its content, the two external collaborators of
`analyze_with_ai`: the HTTP call raises (network error or non-2xx
status), the response lacks the expected structure
(`response.choices[0].message.content`), the content is not valid JSON
(`json.loads` raises), or it parses to a JSON value. -/
inductive ModelResponse where
  | netFailure (e : String)
  | badStructure (e : String)
  | badJson (raw : String)
  | json (v : Json)

/-- `analyze_with_ai` (lines 91-118): no failure is caught — a failing
remote call, a malformed response and a validation failure all raise; a
parsed response is validated by `AnalysisResult(**data)`. The prompt built
from `resume_text` only influences the remote service, which is a
parameter here, so the text itself is unused. -/
def analyzeWithAi (resumeText : String) (resp : ModelResponse) :
    Except PyErr AnalysisResult :=
  match resp with
  | .netFailure e => .error (.apiError e)
  | .badStructure e => .error (.structureError e)
  | .badJson raw => .error (.jsonDecodeError raw)
  | .json v =>
      match validateAnalysis v with
      | .ok r => .ok r
      | .error m => .error (.validationError m)

/-- An uploaded file: a filename and opaque content bytes. -/
structure FileUpload where
  filename : String
  content : List Nat

/-- What the `analyze-resume` handler produces: a validated record, a
structured error dict, or an uncaught exception that propagates to the
framework (which surfaces it as an internal server error). -/
inductive AnalyzeResponse where
  | ok (r : AnalysisResult)
  | errorMsg (msg : String)
  | raised (e : PyErr)

/-- True exactly on the structured-error-dict outcome. -/
def AnalyzeResponse.isErrorMsg : AnalyzeResponse → Bool
  | .errorMsg _ => true
  | _ => false

/-- True exactly on the successful-record outcome. -/
def AnalyzeResponse.isOk : AnalyzeResponse → Bool
  | .ok _ => true
  | _ => false

/-- Lines 139-143: the tail of the handler after extraction — the
whitespace-only check, then the call into `analyze_with_ai` whose
exceptions propagate. The second component records whether the remote
service was invoked. -/
def afterExtract (text : String) (resp : ModelResponse) :
    AnalyzeResponse × Bool :=
  if pyStrip text = "" then (.errorMsg "Could not read text from file", false)
  else
    match analyzeWithAi text resp with
    | .ok r => (.ok r, true)
    | .error e => (.raised e, true)

/-- The `analyze-resume` handler (lines 126-143). Suffix dispatch is on the
lower-cased filename; the extraction libraries (fitz / python-docx) are
parameters that either return text or raise; an unsupported suffix
returns the structured error dict without touching extraction or the
remote service. -/
def analyzeResume (file : FileUpload)
    (extractPdf extractDocx : List Nat → Except String String)
    (resp : ModelResponse) : AnalyzeResponse × Bool :=
  let fname := pyToLower file.filename
  if pyEndsWith fname ".pdf" then
    match extractPdf file.content with
    | .error e => (.raised (.extractionError e), false)
    | .ok text => afterExtract text resp
  else if pyEndsWith fname ".docx" then
    match extractDocx file.content with
    | .error e => (.raised (.extractionError e), false)
    | .ok text => afterExtract text resp
  else (.errorMsg "Only PDF or DOCX files are supported", false)

/-! ## The report renderer (`download_report`, lines 151-364)

The handler builds a list of styled flowables and hands it to the layout
method `SimpleDocTemplate.build` of the layout library. The embedding keeps the element list;
each constructor tags the paragraph style used in the source
(`title_style`, `header_style`, `body_style`, `bullet_style`), the two
tables keep their cell texts, and spacer heights are recorded in
hundredths of an inch. -/

inductive Element where
  | title (text : String)
  | header (text : String)
  | para (text : String)
  | bullet (text : String)
  | spacer (hHundredthsInch : Nat)
  | scoreTable (text : String)
  | skillTable (rows : List (List String))
  | pageBreak
deriving DecidableEq, Repr

/-- The gold divider paragraph of line 259 (body style, inline markup). -/
def dividerMarkup : String :=
  "<para alignment=\x27center\x27><font color=\x27#C9A227\x27>────────────────────────────────────────</font></para>"

/-- A skill badge cell (line 304): the skill name wrapped in centering and
bold inline markup. -/
def badgeOf (s : String) : String :=
  "<para alignment=\x27center\x27><b>" ++ s ++ "</b></para>"

/-- The skill-row accumulation loop of lines 299-323: badges are appended
to the current row, a full row of three is flushed, and a non-empty
trailing row is kept. -/
def skillRowsLoop (skills : List String) (row : List String) :
    List (List String) :=
  match skills with
  | [] => if row.isEmpty then [] else [row]
  | s :: rest =>
      let row2 := row ++ [badgeOf s]
      if row2.length = 3 then row2 :: skillRowsLoop rest []
      else skillRowsLoop rest row2

/-- The element list built by `download_report` (lines 228-351), in source
order. `if data.strengths:` is Python truthiness, i.e. non-emptiness. -/
def buildElements (d : AnalysisResult) : List Element :=
  [ .title "Resume Analysis Report", .spacer 35,
    .scoreTable ("<b>Your Resume Score: " ++ toString d.score ++ "/100</b>"),
    .spacer 30,
    .para dividerMarkup, .spacer 20,
    .header "Professional Summary", .spacer 10,
    .para (nlToBr d.summary), .spacer 25 ]
  ++ (if d.strengths.isEmpty then []
      else [ .header "Key Strengths", .spacer 15 ]
        ++ d.strengths.map (fun s => .bullet ("• " ++ s))
        ++ [ .spacer 30 ])
  ++ [ .header "Areas for Improvement", .spacer 15 ]
  ++ d.weaknesses.map (fun w => .bullet ("• " ++ w))
  ++ [ .spacer 30,
       .header "Detected Skills", .spacer 15,
       .skillTable (skillRowsLoop d.skills []), .spacer 30,
       .header "Suggestions for Improvement", .spacer 15 ]
  ++ d.suggestions.map (fun s => .bullet ("• " ++ s))
  ++ [ .spacer 40, .pageBreak,
       .title "AI-Optimized Resume", .spacer 30,
       .para (nlToBr d.improvedResume) ]

/-- The full response of the `download-report` handler: the rendered
element list together with the media type and the attachment header of
lines 360-364. -/
def downloadReport (d : AnalysisResult) : List Element × String × String :=
  (buildElements d, "application/pdf",
   "attachment; filename=UltraPremium_Resume_Report.pdf")

/-! ## Observations on rendered element lists -/

/-- The document skeleton: section-level markers of an element, skipping
spacers and bullet lines. Titles and headers keep their text. -/
def elementTag : Element → Option String
  | .title t => some ("title:" ++ t)
  | .header t => some ("header:" ++ t)
  | .para _ => some "paragraph"
  | .scoreTable _ => some "score-panel"
  | .skillTable _ => some "skills-table"
  | .pageBreak => some "page-break"
  | .bullet _ => none
  | .spacer _ => none

/-- Section-level skeleton of an element list. -/
def skeletonOf (es : List Element) : List String :=
  es.filterMap elementTag

/-- The text of a header element. -/
def headerText? : Element → Option String
  | .header t => some t
  | _ => none

/-- The text of a bulleted line. -/
def bulletText? : Element → Option String
  | .bullet t => some t
  | _ => none

/-- The text of a body-style paragraph. -/
def paraText? : Element → Option String
  | .para t => some t
  | _ => none

/-- The text of a score panel. -/
def scoreText? : Element → Option String
  | .scoreTable t => some t
  | _ => none

/-- The cell rows of a skill table. -/
def skillRowsOf? : Element → Option (List (List String))
  | .skillTable rows => some rows
  | _ => none

/-- The header texts of an element list, in order. -/
def headerTexts (es : List Element) : List String :=
  es.filterMap headerText?

/-- The bulleted lines of an element list, in order. -/
def bulletTexts (es : List Element) : List String :=
  es.filterMap bulletText?

/-- The body-style paragraph texts of an element list, in order. -/
def paraTexts (es : List Element) : List String :=
  es.filterMap paraText?

/-- The score-panel texts of an element list, in order. -/
def scoreTexts (es : List Element) : List String :=
  es.filterMap scoreText?

/-- The skill-table row contents of an element list, in order. -/
def skillTablesOf (es : List Element) : List (List (List String)) :=
  es.filterMap skillRowsOf?

/-! ## Inline-markup interpretation by the layout library -/

/-- Modelled from the spec: the document-layout library treats paragraph
text as "String-templated document markup (inline color/markup tags
embedded in text)" (§9), so a literal `<` opens a tag rather than being
rendered as visible text, and a rendering failure on such text "is fatal
to that single request" (§7). The scanner walks the text with an
inside-a-tag flag; a text is well formed when every tag opened is closed
and no `<` occurs inside a tag. -/
def scanMarkup : List Char → Bool → Bool
  | [], inTag => !inTag
  | c :: rest, true =>
      if c = '>' then scanMarkup rest false
      else if c = '<' then false
      else scanMarkup rest true
  | c :: rest, false =>
      if c = '<' then scanMarkup rest true else scanMarkup rest false

/-- Modelled from the spec: whether a paragraph text parses as well-formed
inline markup; ill-formed text fails the render of that request. -/
def markupWellFormed (s : String) : Bool :=
  scanMarkup s.data false

/-- Modelled from the spec: the visible characters of an inline-markup
text — everything outside tags; characters between `<` and `>` are
consumed as markup, not shown. -/
def visibleChars : List Char → Bool → List Char
  | [], _ => []
  | c :: rest, true =>
      if c = '>' then visibleChars rest false else visibleChars rest true
  | c :: rest, false =>
      if c = '<' then visibleChars rest true else c :: visibleChars rest false

/-- Modelled from the spec: the visible text of an inline-markup string. -/
def visibleTextOf (s : String) : String :=
  String.mk (visibleChars s.data false)

/-! ## Concrete fixtures -/

/-- A well-formed model response object with the given score value and the
remaining fields fixed. -/
def okObjScore (v : Json) : List (String × Json) :=
  [("score", v),
   ("skills", .arr [.str "Python", .str "Go"]),
   ("summary", .str "Strong backend engineer."),
   ("weaknesses", .arr [.str "No metrics"]),
   ("suggestions", .arr [.str "Add metrics"]),
   ("improvedResume", .str "Jane Doe")]

/-- A well-formed model response object (score 82, no strengths or
sections keys). -/
def okObj : List (String × Json) := okObjScore (.int 82)

/-- The record `okObj` validates to. -/
def recOk : AnalysisResult :=
  { score := 82, skills := ["Python", "Go"],
    summary := "Strong backend engineer.",
    weaknesses := ["No metrics"], suggestions := ["Add metrics"],
    improvedResume := "Jane Doe", strengths := [], sections := [] }

/-- `okObj` with an extra key not declared on the model. -/
def extraObj : List (String × Json) :=
  ("model", .str "gpt-4.1-mini") :: okObj

/-- `recOk` with a single detected skill, for the skills-rendering
counterexample. -/
def recSkills : AnalysisResult := { recOk with skills := ["Python"] }

/-- A record whose strings carry markup-significant characters. -/
def recMk : AnalysisResult :=
  { recOk with summary := "Exp <b>10 years",
               suggestions := ["Add <metrics"] }

/-- An extraction stub that returns the given text for any bytes. -/
def stubExtract (t : String) : List Nat → Except String String :=
  fun _ => .ok t

/-- An upload with an unsupported suffix. -/
def txtFile : FileUpload := { filename := "resume.txt", content := [] }

/-- An upload with the PDF suffix. -/
def pdfFile : FileUpload := { filename := "resume.pdf", content := [] }

/-- A remote response that parses and validates. -/
def goodResp : ModelResponse := .json (.obj okObj)

/-! ## Helper lemmas -/

lemma filterMap_map_eq_nil {α β γ : Type} (g : α → β) (f : β → Option γ)
    (h : ∀ a, f (g a) = none) (l : List α) : (l.map g).filterMap f = [] := by
  induction l with
  | nil => rfl
  | cons x xs ih => simp [List.filterMap_cons, h, ih]

lemma filterMap_map_eq_map {α β γ : Type} (g : α → β) (f : β → Option γ)
    (k : α → γ) (h : ∀ a, f (g a) = some (k a)) (l : List α) :
    (l.map g).filterMap f = l.map k := by
  induction l with
  | nil => rfl
  | cons x xs ih => simp [List.filterMap_cons, h, ih]

lemma skillRowsLoop_join (skills : List String) : ∀ row : List String,
    (skillRowsLoop skills row).flatten = row ++ skills.map badgeOf := by
  induction skills with
  | nil =>
      intro row
      by_cases h : row.isEmpty
      · simp [skillRowsLoop, h, List.isEmpty_iff.mp h]
      · simp [skillRowsLoop, h]
  | cons s rest ih =>
      intro row
      simp only [skillRowsLoop]
      by_cases h : (row ++ [badgeOf s]).length = 3
      · rw [if_pos h]; simp [ih]
      · rw [if_neg h]; simp [ih]

lemma skillRowsLoop_bounds (skills : List String) : ∀ row : List String,
    row.length ≤ 2 →
    ∀ r ∈ skillRowsLoop skills row, 0 < r.length ∧ r.length ≤ 3 := by
  induction skills with
  | nil =>
      intro row hrow r hr
      by_cases h : row.isEmpty
      · simp [skillRowsLoop, h] at hr
      · simp [skillRowsLoop, h] at hr
        have hne : row ≠ [] := by simpa using h
        rw [hr]
        exact ⟨List.length_pos.mpr hne, by omega⟩
  | cons s rest ih =>
      intro row hrow r hr
      simp only [skillRowsLoop] at hr
      by_cases h : (row ++ [badgeOf s]).length = 3
      · rw [if_pos h] at hr
        rcases List.mem_cons.mp hr with h2 | h2
        · subst h2; omega
        · exact ih [] (by simp) r h2
      · rw [if_neg h] at hr
        have hlen : (row ++ [badgeOf s]).length ≤ 2 := by
          simp at h ⊢; omega
        exact ih _ hlen r hr

lemma skillRowsLoop_dropLast (skills : List String) : ∀ row : List String,
    row.length ≤ 2 →
    ∀ r ∈ (skillRowsLoop skills row).dropLast, r.length = 3 := by
  induction skills with
  | nil =>
      intro row hrow r hr
      by_cases h : row.isEmpty <;> simp [skillRowsLoop, h] at hr
  | cons s rest ih =>
      intro row hrow r hr
      simp only [skillRowsLoop] at hr
      by_cases h : (row ++ [badgeOf s]).length = 3
      · rw [if_pos h] at hr
        cases h2 : skillRowsLoop rest [] with
        | nil => rw [h2] at hr; simp at hr
        | cons a l =>
            rw [h2] at hr
            rw [List.dropLast_cons_of_ne_nil (by simp)] at hr
            rcases List.mem_cons.mp hr with h3 | h3
            · subst h3; exact h
            · have h4 := ih [] (by simp) r
              rw [h2] at h4
              exact h4 h3
      · rw [if_neg h] at hr
        have hlen : (row ++ [badgeOf s]).length ≤ 2 := by
          simp at h ⊢; omega
        exact ih _ hlen r hr

lemma exceptBind_ok {ε α β : Type} {x : Except ε α} {f : α → Except ε β}
    {b : β} (h : (x >>= f) = .ok b) : ∃ a, x = .ok a ∧ f a = .ok b := by
  cases x with
  | error e => simp [Bind.bind, Except.bind] at h
  | ok a => exact ⟨a, rfl, by simpa [Bind.bind, Except.bind] using h⟩

lemma requiredField_ok_lookup {α : Type} (kvs : List (String × Json))
    (k : String) (f : Json → Except String α) {a : α}
    (h : requiredField kvs k f = .ok a) : (pyLookup k kvs).isSome = true := by
  unfold requiredField at h
  split at h
  · cases h
  · simp [*]

lemma optionalField_none_default {α : Type} (kvs : List (String × Json))
    (k : String) (f : Json → Except String α) {dflt a : α}
    (h : optionalField kvs k f dflt = .ok a) (hn : pyLookup k kvs = none) :
    a = dflt := by
  unfold optionalField at h
  rw [hn] at h
  cases h
  rfl

lemma pyLookup_filter (k : String) (kvs : List (String × Json))
    (hk : k ∈ modelKeys) :
    pyLookup k (kvs.filter fun kv => decide (kv.1 ∈ modelKeys)) =
      pyLookup k kvs := by
  induction kvs with
  | nil => rfl
  | cons kv rest ih =>
      obtain ⟨k2, v⟩ := kv
      by_cases hkk : k2 = k
      · subst hkk
        simp [List.filter_cons, pyLookup, decide_eq_true hk]
      · by_cases hmem : k2 ∈ modelKeys
        · simp [List.filter_cons, pyLookup, decide_eq_true hmem, hkk, ih]
        · simp only [List.filter_cons]
          rw [decide_eq_false hmem]
          simp [pyLookup, hkk, ih]

lemma afterExtract_netFailure (t e : String)
    (h : (afterExtract t (.netFailure e)).2 = true) :
    (afterExtract t (.netFailure e)).1 = .raised (.apiError e) := by
  unfold afterExtract at h ⊢
  by_cases hs : pyStrip t = ""
  · rw [if_pos hs] at h; simp at h
  · rw [if_neg hs] at h ⊢; rfl

lemma afterExtract_badStructure (t e : String)
    (h : (afterExtract t (.badStructure e)).2 = true) :
    (afterExtract t (.badStructure e)).1 = .raised (.structureError e) := by
  unfold afterExtract at h ⊢
  by_cases hs : pyStrip t = ""
  · rw [if_pos hs] at h; simp at h
  · rw [if_neg hs] at h ⊢; rfl

/-! ## Claims -/

/-- Claim C1, counterexample: on the upload named "resume.txt" the handler
returns the structured error dict without invoking the remote service, but
the message is "Only PDF or DOCX files are supported", not the claimed
"Only PDF or DOCX files supported". -/
theorem analyze_unsupported_suffix_message_cx :
    (analyzeResume txtFile (stubExtract "t") (stubExtract "t") goodResp).1 =
      .errorMsg "Only PDF or DOCX files are supported"
    ∧ (analyzeResume txtFile (stubExtract "t") (stubExtract "t") goodResp).1 ≠
      .errorMsg "Only PDF or DOCX files supported"
    ∧ (analyzeResume txtFile (stubExtract "t") (stubExtract "t") goodResp).2 =
      false := by
  refine ⟨rfl, ?_, rfl⟩
  intro hcontra
  have h2 : AnalyzeResponse.errorMsg "Only PDF or DOCX files are supported" =
      AnalyzeResponse.errorMsg "Only PDF or DOCX files supported" := hcontra
  injection h2 with h3
  exact absurd h3 (by decide)

/-- Claim C1, amended: for every uploaded file whose lower-cased filename
ends in neither ".pdf" nor ".docx", the analyze operation returns the
structured error dict with message "Only PDF or DOCX files are supported"
and never invokes the remote text-generation service. -/
theorem analyze_unsupported_suffix (file : FileUpload)
    (extractPdf extractDocx : List Nat → Except String String)
    (resp : ModelResponse)
    (h1 : pyEndsWith (pyToLower file.filename) ".pdf" = false)
    (h2 : pyEndsWith (pyToLower file.filename) ".docx" = false) :
    analyzeResume file extractPdf extractDocx resp =
      (.errorMsg "Only PDF or DOCX files are supported", false) := by
  simp [analyzeResume, h1, h2]

/-- Witness for the amended C1 at the concrete upload "resume.txt". -/
theorem analyze_unsupported_suffix_witness :
    pyEndsWith (pyToLower txtFile.filename) ".pdf" = false
    ∧ pyEndsWith (pyToLower txtFile.filename) ".docx" = false
    ∧ analyzeResume txtFile (stubExtract "t") (stubExtract "t") goodResp =
      (.errorMsg "Only PDF or DOCX files are supported", false) :=
  ⟨by decide, by decide,
   analyze_unsupported_suffix txtFile (stubExtract "t") (stubExtract "t")
     goodResp (by decide) (by decide)⟩

/-- Claim C2, counterexample: a parsed model response with score 150
passes validation and yields a successful analysis whose record carries
score 150, outside the claimed 0..100 range. -/
theorem score_range_unchecked_cx :
    analyzeWithAi "resume" (.json (.obj (okObjScore (.int 150)))) =
      .ok { recOk with score := 150 }
    ∧ ({ recOk with score := 150 } : AnalysisResult).score = 150
    ∧ ¬((150 : Int) ≤ 100) :=
  ⟨rfl, rfl, by decide⟩

/-- Claim C2, amended: the schema-validation step checks only that score
validates as an integer and imposes no range restriction, so a successful
analysis yields a record with any integer score the model returns. -/
theorem score_range_unchecked (t : String) (n : Int) :
    analyzeWithAi t (.json (.obj (okObjScore (.int n)))) =
      .ok { recOk with score := n } := rfl

/-- Claim C3, counterexample: with a remote failure ("HTTP 500") on a PDF
upload with extractable text, the operation neither returns a structured
error dict nor a record: the exception propagates out of the handler. -/
theorem remote_failure_no_structured_error_cx :
    analyzeResume pdfFile (stubExtract "Jane Doe") (stubExtract "Jane Doe")
      (.netFailure "HTTP 500") = (.raised (.apiError "HTTP 500"), true)
    ∧ (analyzeResume pdfFile (stubExtract "Jane Doe") (stubExtract "Jane Doe")
        (.netFailure "HTTP 500")).1.isErrorMsg = false
    ∧ (analyzeResume pdfFile (stubExtract "Jane Doe") (stubExtract "Jane Doe")
        (.netFailure "HTTP 500")).1.isOk = false :=
  ⟨rfl, rfl, rfl⟩

/-- Claim C3, amended: whenever the remote call is actually reached and
fails (network error, non-2xx status, or missing expected response
structure), the analyze operation raises: the uncaught exception
propagates to the framework instead of a structured "analysis unavailable"
error dict, and no AnalysisRecord is constructed (the operation stays
all-or-nothing). -/
theorem analyze_remote_failure_propagates (file : FileUpload)
    (extractPdf extractDocx : List Nat → Except String String) (e : String) :
    ((analyzeResume file extractPdf extractDocx (.netFailure e)).2 = true →
      (analyzeResume file extractPdf extractDocx (.netFailure e)).1 =
        .raised (.apiError e)) ∧
    ((analyzeResume file extractPdf extractDocx (.badStructure e)).2 = true →
      (analyzeResume file extractPdf extractDocx (.badStructure e)).1 =
        .raised (.structureError e)) := by
  constructor <;>
  · intro h
    simp only [analyzeResume] at h ⊢
    by_cases h1 : pyEndsWith (pyToLower file.filename) ".pdf"
    · simp only [h1, if_true] at h ⊢
      cases hx : extractPdf file.content with
      | error err => rw [hx] at h; simp at h
      | ok t =>
          rw [hx] at h
          first
          | exact afterExtract_netFailure t e h
          | exact afterExtract_badStructure t e h
    · simp only [h1, if_false, Bool.false_eq_true] at h ⊢
      by_cases h2 : pyEndsWith (pyToLower file.filename) ".docx"
      · simp only [h2, if_true] at h ⊢
        cases hx : extractDocx file.content with
        | error err => rw [hx] at h; simp at h
        | ok t =>
            rw [hx] at h
            first
            | exact afterExtract_netFailure t e h
            | exact afterExtract_badStructure t e h
      · simp only [h2, if_false, Bool.false_eq_true] at h

/-- Witness for the amended C3 at a concrete PDF upload whose remote call
fails with "HTTP 500". -/
theorem analyze_remote_failure_propagates_witness :
    (analyzeResume pdfFile (stubExtract "Jane Doe") (stubExtract "Jane Doe")
      (.netFailure "HTTP 500")).2 = true
    ∧ (analyzeResume pdfFile (stubExtract "Jane Doe") (stubExtract "Jane Doe")
        (.netFailure "HTTP 500")).1 = .raised (.apiError "HTTP 500") :=
  ⟨rfl,
   (analyze_remote_failure_propagates pdfFile (stubExtract "Jane Doe")
      (stubExtract "Jane Doe") "HTTP 500").1 rfl⟩

/-- Claim C4 (confirmed): for every AnalysisRecord the rendered report
keeps the fixed section order — title, score panel, professional summary,
key strengths (the whole section including its heading omitted when the
strengths list is empty), areas for improvement, detected skills grouped
three per row, suggestions, page break, "AI-Optimized Resume" title,
improved resume body; every skill-badge row is non-empty with at most
three badges, every row before the last has exactly three, and the rows
flatten back to the badge list in input order. -/
theorem report_section_order (d : AnalysisResult) :
    skeletonOf (buildElements d) =
      ["title:Resume Analysis Report", "score-panel", "paragraph",
       "header:Professional Summary", "paragraph"]
      ++ (if d.strengths.isEmpty then [] else ["header:Key Strengths"])
      ++ ["header:Areas for Improvement", "header:Detected Skills",
          "skills-table", "header:Suggestions for Improvement", "page-break",
          "title:AI-Optimized Resume", "paragraph"]
    ∧ (skillRowsLoop d.skills []).flatten = d.skills.map badgeOf
    ∧ (skillRowsLoop d.skills []).dropLast.all
        (fun r => r.length == 3) = true
    ∧ (skillRowsLoop d.skills []).all
        (fun r => decide (0 < r.length) && decide (r.length ≤ 3)) = true := by
  refine ⟨?_, skillRowsLoop_join d.skills [], ?_, ?_⟩
  · cases h : d.strengths.isEmpty <;>
      simp [buildElements, skeletonOf, h, List.filterMap_append, elementTag,
        filterMap_map_eq_nil (fun s => Element.bullet ("• " ++ s)) elementTag
          (fun a => rfl)]
  · rw [List.all_eq_true]
    intro r hr
    simpa using skillRowsLoop_dropLast d.skills [] (by simp) r hr
  · rw [List.all_eq_true]
    intro r hr
    have hb := skillRowsLoop_bounds d.skills [] (by simp) r hr
    simp only [Bool.and_eq_true, decide_eq_true_eq]
    exact hb

/-- Claim C5, counterexample: at score 82 the score-panel text is
"<b>Your Resume Score: 82/100</b>" — the visible text carries a leading
"Your " and bold markup — so it does not read exactly
"Resume Score: 82/100". -/
theorem score_panel_text_cx :
    scoreTexts (buildElements recOk) = ["<b>Your Resume Score: 82/100</b>"]
    ∧ scoreTexts (buildElements recOk) ≠ ["Resume Score: 82/100"] :=
  ⟨rfl, by decide⟩

/-- Claim C5, amended: for every AnalysisRecord with score s the rendered
report contains exactly one score panel, whose markup text is
"<b>Your Resume Score: s/100</b>" with the score value inserted verbatim
and no clamping or re-validation applied by the renderer. -/
theorem score_panel_text (d : AnalysisResult) :
    scoreTexts (buildElements d) =
      ["<b>Your Resume Score: " ++ toString d.score ++ "/100</b>"] := by
  cases h : d.strengths.isEmpty <;>
    simp [buildElements, scoreTexts, h, List.filterMap_append, scoreText?,
      filterMap_map_eq_nil (fun s => Element.bullet ("• " ++ s)) scoreText?
        (fun a => rfl)]

/-- Claim C6, counterexample: for a record whose skills list is
["Python"], the element list contains no bulleted line for the skill;
the skill is rendered instead as a badge cell inside the skills table. -/
theorem skills_not_bulleted_cx :
    bulletTexts (buildElements recSkills) = ["• No metrics", "• Add metrics"]
    ∧ Element.bullet "• Python" ∉ buildElements recSkills
    ∧ skillTablesOf (buildElements recSkills) = [[[badgeOf "Python"]]] :=
  ⟨rfl, by decide, rfl⟩

/-- Claim C6, amended: weaknesses and suggestions (and, when non-empty,
strengths) each render as exactly one bulleted line per entry in input
order beneath their section headers; the weaknesses, skills and
suggestions headers are always emitted, with zero bullet lines beneath an
empty weaknesses or suggestions list; skills render not as bullets but as
one badge per entry collected into the skills table, and element
construction succeeds for every record. -/
theorem list_fields_rendering (d : AnalysisResult) :
    bulletTexts (buildElements d) =
      (if d.strengths.isEmpty then []
       else d.strengths.map (fun s => "• " ++ s))
      ++ d.weaknesses.map (fun w => "• " ++ w)
      ++ d.suggestions.map (fun s => "• " ++ s)
    ∧ headerTexts (buildElements d) =
      ["Professional Summary"]
      ++ (if d.strengths.isEmpty then [] else ["Key Strengths"])
      ++ ["Areas for Improvement", "Detected Skills",
          "Suggestions for Improvement"]
    ∧ skillTablesOf (buildElements d) = [skillRowsLoop d.skills []] := by
  refine ⟨?_, ?_, ?_⟩
  · cases h : d.strengths.isEmpty <;>
      simp [buildElements, bulletTexts, h, List.filterMap_append, bulletText?,
        filterMap_map_eq_map (fun s => Element.bullet ("• " ++ s)) bulletText?
          (fun s => "• " ++ s) (fun a => rfl)]
  · cases h : d.strengths.isEmpty <;>
      simp [buildElements, headerTexts, h, List.filterMap_append, headerText?,
        filterMap_map_eq_nil (fun s => Element.bullet ("• " ++ s)) headerText?
          (fun a => rfl)]
  · cases h : d.strengths.isEmpty <;>
      simp [buildElements, skillTablesOf, h, List.filterMap_append,
        skillRowsOf?,
        filterMap_map_eq_nil (fun s => Element.bullet ("• " ++ s)) skillRowsOf?
          (fun a => rfl)]

/-- Claim C7 (confirmed): report rendering is deterministic — the full
response of the render operation is a pure function of the record fields
it reads (score, skills, summary, weaknesses, suggestions, improvedResume,
strengths), so two invocations on records agreeing on those fields produce
identical output; in particular the unread sections field cannot influence
the result. -/
theorem render_deterministic (d₁ d₂ : AnalysisResult)
    (h1 : d₁.score = d₂.score) (h2 : d₁.skills = d₂.skills)
    (h3 : d₁.summary = d₂.summary) (h4 : d₁.weaknesses = d₂.weaknesses)
    (h5 : d₁.suggestions = d₂.suggestions)
    (h6 : d₁.improvedResume = d₂.improvedResume)
    (h7 : d₁.strengths = d₂.strengths) :
    downloadReport d₁ = downloadReport d₂ := by
  simp [downloadReport, buildElements, h1, h2, h3, h4, h5, h6, h7]

/-- Witness for C7: two records identical except for the sections field
render to identical responses. -/
theorem render_deterministic_witness :
    recOk.score = ({ recOk with sections := [Json.null] } : AnalysisResult).score
    ∧ downloadReport recOk =
      downloadReport { recOk with sections := [Json.null] } :=
  ⟨rfl,
   render_deterministic recOk { recOk with sections := [Json.null] }
     rfl rfl rfl rfl rfl rfl rfl⟩

/-- Claim C8, counterexample: a response whose score is the JSON string
"82" — a wrong field type for the integer field — does not fail schema
validation: the value is coerced to the integer 82 and construction
succeeds. -/
theorem score_string_coerced_cx :
    pyLookup "score" (okObjScore (.str "82")) = some (.str "82")
    ∧ validateAnalysis (.obj (okObjScore (.str "82"))) = .ok recOk
    ∧ recOk.score = 82 :=
  ⟨rfl, rfl, rfl⟩

/-- Claim C8, amended: whenever validation succeeds, every required key
(score, skills, summary, weaknesses, suggestions, improvedResume) was
present; an absent strengths key and an absent sections key default to the
empty sequence; however a wrong-typed value does not always fail — a value
coercible to the declared type (such as an integer-string for score) is
converted rather than rejected or defaulted. -/
theorem validation_required_keys_and_defaults
    (kvs : List (String × Json)) (r : AnalysisResult)
    (hok : validateAnalysis (.obj kvs) = .ok r) :
    ((pyLookup "score" kvs).isSome = true ∧
     (pyLookup "skills" kvs).isSome = true ∧
     (pyLookup "summary" kvs).isSome = true ∧
     (pyLookup "weaknesses" kvs).isSome = true ∧
     (pyLookup "suggestions" kvs).isSome = true ∧
     (pyLookup "improvedResume" kvs).isSome = true) ∧
    (pyLookup "strengths" kvs = none → r.strengths = []) ∧
    (pyLookup "sections" kvs = none → r.sections = []) := by
  simp only [validateAnalysis] at hok
  obtain ⟨score, h1, hok⟩ := exceptBind_ok hok
  obtain ⟨skills, h2, hok⟩ := exceptBind_ok hok
  obtain ⟨summary, h3, hok⟩ := exceptBind_ok hok
  obtain ⟨weaknesses, h4, hok⟩ := exceptBind_ok hok
  obtain ⟨suggestions, h5, hok⟩ := exceptBind_ok hok
  obtain ⟨improvedResume, h6, hok⟩ := exceptBind_ok hok
  obtain ⟨strengths, h7, hok⟩ := exceptBind_ok hok
  obtain ⟨sections, h8, hok⟩ := exceptBind_ok hok
  simp only [pure, Except.pure] at hok
  injection hok with h9
  subst h9
  exact ⟨⟨requiredField_ok_lookup _ _ _ h1, requiredField_ok_lookup _ _ _ h2,
    requiredField_ok_lookup _ _ _ h3, requiredField_ok_lookup _ _ _ h4,
    requiredField_ok_lookup _ _ _ h5, requiredField_ok_lookup _ _ _ h6⟩,
    fun hn => optionalField_none_default _ _ _ h7 hn,
    fun hn => optionalField_none_default _ _ _ h8 hn⟩

/-- Witness for the amended C8 at the concrete valid response object,
which lacks the strengths and sections keys. -/
theorem validation_required_keys_and_defaults_witness :
    validateAnalysis (.obj okObj) = .ok recOk
    ∧ (pyLookup "score" okObj).isSome = true
    ∧ pyLookup "strengths" okObj = none
    ∧ recOk.strengths = []
    ∧ recOk.sections = [] :=
  ⟨rfl,
   (validation_required_keys_and_defaults okObj recOk rfl).1.1,
   rfl,
   (validation_required_keys_and_defaults okObj recOk rfl).2.1 rfl,
   (validation_required_keys_and_defaults okObj recOk rfl).2.2 rfl⟩

/-- Claim C9 (confirmed): validation reads only the eight declared model
keys, so a response carrying extra keys validates to exactly the record
obtained after removing them; in particular the concrete response with an
extra "model" key succeeds, and stripping it recovers the plain object. -/
theorem extra_keys_ignored :
    (∀ kvs : List (String × Json),
      validateAnalysis (.obj kvs) =
        validateAnalysis (.obj (kvs.filter fun kv => decide (kv.1 ∈ modelKeys))))
    ∧ validateAnalysis (.obj extraObj) = .ok recOk
    ∧ extraObj.filter (fun kv => decide (kv.1 ∈ modelKeys)) = okObj := by
  refine ⟨?_, rfl, rfl⟩
  intro kvs
  simp only [validateAnalysis, requiredField, optionalField]
  rw [pyLookup_filter "score" kvs (by decide),
      pyLookup_filter "skills" kvs (by decide),
      pyLookup_filter "summary" kvs (by decide),
      pyLookup_filter "weaknesses" kvs (by decide),
      pyLookup_filter "suggestions" kvs (by decide),
      pyLookup_filter "improvedResume" kvs (by decide),
      pyLookup_filter "strengths" kvs (by decide),
      pyLookup_filter "sections" kvs (by decide)]

/-- Claim C10 (confirmed): the renderer interpolates the summary, the
improved resume and every bullet entry into the inline-markup paragraph
text verbatim, with no escaping of markup-significant characters; for the
concrete record whose summary contains the tag "<b>" the markup parser
consumes the tag rather than showing it as literal text, and a bullet
entry with an unterminated "<" is ill-formed markup, failing the render of
that request. -/
theorem markup_injection :
    (∀ d : AnalysisResult,
      paraTexts (buildElements d) =
        [dividerMarkup, nlToBr d.summary, nlToBr d.improvedResume])
    ∧ paraTexts (buildElements recMk) =
        [dividerMarkup, "Exp <b>10 years", "Jane Doe"]
    ∧ bulletTexts (buildElements recMk) = ["• No metrics", "• Add <metrics"]
    ∧ visibleTextOf "Exp <b>10 years" ≠ "Exp <b>10 years"
    ∧ markupWellFormed "• Add <metrics" = false := by
  refine ⟨?_, rfl, rfl, by decide, rfl⟩
  intro d
  cases h : d.strengths.isEmpty <;>
    simp [buildElements, paraTexts, h, List.filterMap_append, paraText?,
      filterMap_map_eq_nil (fun s => Element.bullet ("• " ++ s)) paraText?
        (fun a => rfl)]

end ResumeBackend
